import Mathlib

/-!
# Verification of the TTS gateway servers

A shallow embedding of the two FastAPI text-to-speech gateway servers
(`scripts/chatterbox-server.py` and `scripts/coqui-server.py`) together with
theorems settling the specification claims about them.

Modelling conventions:
* The filesystem holding voice assets is a list of path strings (for
  existence checks and deletion) or an association list from paths to decoded
  audio data (for the upload path, where contents matter).
* The opaque TTS engine is part of an `Env` record: `loadOutcome` is what
  `ChatterboxTTS.from_pretrained` / `TTS(...)` would produce, `generate` is
  `model.generate`, and `canEncode` says which containers the torchaudio
  backend can write (`ta.save` raises when it cannot).
* Engine tuning values (`exaggeration`, `cfg_weight`, `speed`) are carried as
  rationals; the gateway never computes with them, it only passes them along.
* Every endpoint returns, besides the HTTP outcome, the updated server state
  and the list of engine invocations it performed (a ghost trace used to state
  "the model is never invoked" and "both surfaces make the same engine call").
* All endpoints of these servers are `async def` handlers running on a single
  asyncio event loop, and `get_model` contains no `await` point, so each call
  to it executes atomically; a set of concurrent callers is therefore modelled
  as a sequence of atomic `get_model` steps in an arbitrary order.
-/

namespace TTSGateway

/-- An HTTP error response, as raised by `HTTPException(status_code, detail)`. -/
structure HTTPErr where
  status : Nat
  detail : String
deriving DecidableEq, Repr

/-- Audio container formats the gateway can ask torchaudio to write. -/
inductive AudioFormat where
  | wav
  | mp3
  | ogg
  | flac
deriving DecidableEq, Repr

/-- Decoded audio held in memory (a torch tensor of shape (channels, samples)).
Only the channel count matters to the gateway's own logic. -/
structure AudioData where
  channels : Nat
deriving DecidableEq, Repr

/-- The loaded TTS model handle. `tag` distinguishes distinct load results,
`sr` is `tts_model.sr`, and `outRate` models the optional
`synthesizer.output_sample_rate` attribute of a Coqui model. -/
structure ModelHandle where
  tag : Nat
  sr : Nat
  outRate : Option Nat
deriving DecidableEq, Repr

/-- The result of `ta.save(buffer, wav, sr, format=fmt)`: bytes in container
`fmt` holding audio `audio` at sample rate `rate`. -/
structure Encoded where
  fmt : AudioFormat
  audio : AudioData
  rate : Nat
deriving DecidableEq, Repr

/-- One invocation of the opaque engine `tts_model.generate(...)`.  A `none`
tuning field means the keyword argument was not passed at all, so the engine
library's own default applies. -/
structure GenerateCall where
  text : String
  audio_prompt_path : Option String
  exaggeration : Option ℚ
  cfg_weight : Option ℚ
deriving DecidableEq, Repr

/-- The JSON body of a synthesis request; `none` marks an absent key. -/
structure Request where
  input : Option String
  text : Option String
  voice : Option String
  exaggeration : Option ℚ
  cfg_weight : Option ℚ
  model : Option String
  speed : Option ℚ
  response_format : Option String
deriving DecidableEq, Repr

/-- A request body with every key absent. -/
def emptyRequest : Request := ⟨none, none, none, none, none, none, none, none⟩

/-- A successful binary-audio HTTP response (`StreamingResponse`). -/
structure AudioResponse where
  status : Nat
  media_type : String
  body : Encoded
deriving DecidableEq, Repr

/-- The module-level mutable state of the chatterbox server: the `model` and
`device` globals, plus a ghost counter of how many times
`ChatterboxTTS.from_pretrained` has been invoked. -/
structure ServerState where
  model : Option ModelHandle
  device : String
  loadAttempts : Nat
deriving DecidableEq, Repr

/-- The module-level mutable state of the coqui server: `model`, `device`,
`sample_rate` globals, plus the same ghost load counter. -/
structure CoquiState where
  model : Option ModelHandle
  device : String
  sample_rate : Nat
  loadAttempts : Nat
deriving DecidableEq, Repr

/-- The environment a server runs in: configuration, hardware probes, and the
behavior of the opaque engine and audio backend. -/
structure Env where
  devPref : String
  cuda : Bool
  mps : Bool
  loadOutcome : Except String ModelHandle
  generate : GenerateCall → Except String AudioData
  canEncode : AudioFormat → Bool

/-- `get_device` of the chatterbox server. -/
def get_device (env : Env) : String :=
  if env.devPref = "auto" then
    if env.cuda then "cuda"
    else if env.mps then "mps"
    else "cpu"
  else env.devPref

/-- `get_device` of the coqui server: under `auto`, MPS hosts fall back to
CPU ("MPS has issues with some TTS models"). -/
def coqui_get_device (env : Env) : String :=
  if env.devPref = "auto" then
    if env.cuda then "cuda"
    else "cpu"
  else env.devPref

/-- `get_model` of the chatterbox server: load-on-first-use of the module
global.  On a load failure the assignment to `model` never happens, so the
handle stays absent; the exception propagates to the caller. -/
def get_model (env : Env) (s : ServerState) :
    Except String ModelHandle × ServerState :=
  match s.model with
  | some m => (.ok m, s)
  | none =>
    let dev := get_device env
    match env.loadOutcome with
    | .ok m =>
        (.ok m, { model := some m, device := dev, loadAttempts := s.loadAttempts + 1 })
    | .error e =>
        (.error e, { model := none, device := dev, loadAttempts := s.loadAttempts + 1 })

/-- `get_model` of the coqui server: also records the synthesizer's output
sample rate (falling back to 22050) and moves the model to CUDA when chosen. -/
def coqui_get_model (env : Env) (s : CoquiState) :
    Except String ModelHandle × CoquiState :=
  match s.model with
  | some m => (.ok m, s)
  | none =>
    let dev := coqui_get_device env
    match env.loadOutcome with
    | .ok m =>
        let sr := m.outRate.getD 22050
        (.ok m, { model := some m, device := dev, sample_rate := sr,
                  loadAttempts := s.loadAttempts + 1 })
    | .error e =>
        (.error e, { s with device := dev, loadAttempts := s.loadAttempts + 1 })

/-- A sequence of `n` callers hitting `get_model`, one after the other.  Each
call is atomic (the Python function has no `await` point and all handlers
share one event loop), so any set of concurrent callers executes as such a
sequence.  Returns every caller's result and the final state. -/
def get_model_iter (env : Env) (s : ServerState) :
    Nat → List (Except String ModelHandle) × ServerState
  | 0 => ([], s)
  | n + 1 =>
    let r := get_model env s
    let rest := get_model_iter env r.2 n
    (r.1 :: rest.1, rest.2)

/-- The analogous sequence of atomic `get_model` calls on the coqui server. -/
def coqui_get_model_iter (env : Env) (s : CoquiState) :
    Nat → List (Except String ModelHandle) × CoquiState
  | 0 => ([], s)
  | n + 1 =>
    let r := coqui_get_model env s
    let rest := coqui_get_model_iter env r.2 n
    (r.1 :: rest.1, rest.2)

/-- `startup_event` of the chatterbox server: eagerly call `get_model`, but
catch any exception and merely log it (startup itself never fails). -/
def startup_event (env : Env) (s : ServerState) : ServerState :=
  match get_model env s with
  | (.ok _, s') => s'
  | (.error _, s') => s'

/-- Python's `a or b` on two optional strings (an empty string is falsy),
then normalised so that a falsy result is `none`. -/
def pyOr (a b : Option String) : Option String :=
  match a with
  | some s => if s = "" then (match b with
      | some t => if t = "" then none else some t
      | none => none)
    else some s
  | none => match b with
    | some t => if t = "" then none else some t
    | none => none

/-- The shared text validation of both synthesis endpoints:
`if not text: 400` then `if len(text) > 4096: 400`.  `noTextMsg` is the
endpoint-specific detail string of the first check. -/
def checkText (t : Option String) (noTextMsg : String) : Except HTTPErr String :=
  match t with
  | none => .error ⟨400, noTextMsg⟩
  | some s =>
    if s = "" then .error ⟨400, noTextMsg⟩
    else if 4096 < s.length then
      .error ⟨400, "Text too long (max 4096 characters)"⟩
    else .ok s

/-- The candidate asset paths for a voice id, in the fixed extension order
tried by both resolution and deletion: `voices_path / f"{voice_id}{ext}"`
for ext in `[".wav", ".mp3"]`.  The id is interpolated as-is. -/
def candidatePaths (dir : String) (voice_id : String) : List String :=
  [".wav", ".mp3"].map (fun ext => dir ++ "/" ++ voice_id ++ ext)

/-- The inline voice-resolution loop of both synthesis endpoints.  Returns the
first existing candidate path (or `none`) and a ghost flag telling whether the
voices directory was touched at all: for the id `"default"` the whole block is
skipped. -/
def resolve_voice (dir : String) (disk : List String) (voice_id : String) :
    Option String × Bool :=
  if voice_id = "default" then (none, false)
  else
    match (candidatePaths dir voice_id).find? (fun p => disk.contains p) with
    | some p => (some p, true)
    | none => (none, true)

/-- `delete_voice`: reject the reserved id, otherwise unlink the first
existing candidate path; 404 when none exists.  Returns the HTTP outcome
(`ok (success, deleted)`) and the disk after the operation. -/
def delete_voice (dir : String) (disk : List String) (voice_id : String) :
    Except HTTPErr (Bool × String) × List String :=
  if voice_id = "default" then
    (.error ⟨400, "Cannot delete default voice"⟩, disk)
  else
    match (candidatePaths dir voice_id).find? (fun p => disk.contains p) with
    | some p => (.ok (true, voice_id), disk.erase p)
    | none => (.error ⟨404, "Voice not found"⟩, disk)

/-- Python's `str.title()` restricted to the cased-vs-uncased distinction of
`Char.isAlpha`: the first letter of each alphabetic run is uppercased and the
rest lowercased. -/
def pyTitleChars : List Char → Bool → List Char
  | [], _ => []
  | c :: cs, prevAlpha =>
    if c.isAlpha then
      (if prevAlpha then c.toLower else c.toUpper) :: pyTitleChars cs true
    else
      c :: pyTitleChars cs false

/-- `str.title()` on a string. -/
def pyTitle (s : String) : String :=
  String.mk (pyTitleChars s.data false)

/-- Whether a file name matches the glob pattern `*<ext>` (for the patterns
`*.wav` / `*.mp3` used by the listing: a suffix test). -/
def matchesGlob (ext : String) (f : String) : Bool :=
  List.isSuffixOf ext.data f.data

/-- `Path.stem` of a file name that ends in the extension `ext`: the name
with the extension removed. -/
def stemOf (ext : String) (f : String) : String :=
  String.mk (f.data.take (f.data.length - ext.data.length))

/-- `stem.replace("_", " ")`: a single-character replacement. -/
def underscoreToSpace (s : String) : String :=
  String.mk (s.data.map (fun c => if c = '_' then ' ' else c))

/-- One entry of the `/voices` listing. -/
structure VoiceEntry where
  id : String
  name : String
  description : String
  is_custom : Bool
  path : Option String
deriving DecidableEq, Repr

/-- The built-in entry prepended to every listing. -/
def defaultVoiceEntry : VoiceEntry :=
  { id := "default", name := "Default Voice",
    description := "Built-in default voice (no reference audio)",
    is_custom := false, path := none }

/-- The listing entry built from one globbed file `f` (a name with extension
`ext` inside the voices directory). -/
def entryForFile (dir : String) (ext : String) (f : String) : VoiceEntry :=
  let stem := stemOf ext f
  { id := stem,
    name := pyTitle (underscoreToSpace stem),
    description := "Custom voice from " ++ f,
    is_custom := true,
    path := some (dir ++ "/" ++ f) }

/-- `list_voice_samples`: the default entry, then one entry per `*.wav` file
in enumeration order, then one entry per `*.mp3` file.  `files` is the
directory's contents in the enumeration order `Path.glob` yields. -/
def list_voice_samples (dir : String) (files : List String) : List VoiceEntry :=
  defaultVoiceEntry ::
    ((files.filter (matchesGlob ".wav")).map (entryForFile dir ".wav") ++
     (files.filter (matchesGlob ".mp3")).map (entryForFile dir ".mp3"))

/-- `ta.save(buffer, wav, sr, format=fmt)`: succeeds exactly when the
torchaudio backend has an encoder for `fmt`, otherwise raises. -/
def taSave (env : Env) (fmt : AudioFormat) (wav : AudioData) (sr : Nat) :
    Except String Encoded :=
  if env.canEncode fmt then .ok ⟨fmt, wav, sr⟩
  else .error "encoding failed"

/-- The native `/synthesize` endpoint of the chatterbox server.  `dir` is the
voices directory, `disk` the set of existing paths.  Besides the HTTP outcome
it returns the updated server state and the list of engine invocations. -/
def synthesize (env : Env) (dir : String) (disk : List String)
    (s : ServerState) (req : Request) :
    Except HTTPErr AudioResponse × ServerState × List GenerateCall :=
  let text? := pyOr req.input req.text
  let voice_id := req.voice.getD "default"
  let exaggeration := req.exaggeration.getD (1/2 : ℚ)
  let cfg_weight := req.cfg_weight.getD (1/2 : ℚ)
  match checkText text? "No text provided" with
  | .error e => (.error e, s, [])
  | .ok text =>
    match get_model env s with
    | (.error e, s') => (.error ⟨500, e⟩, s', [])
    | (.ok tts_model, s') =>
      let audio_prompt_path := (resolve_voice dir disk voice_id).1
      let call : GenerateCall :=
        ⟨text, audio_prompt_path, some exaggeration, some cfg_weight⟩
      match env.generate call with
      | .error e => (.error ⟨500, e⟩, s', [call])
      | .ok wav =>
        match taSave env .wav wav tts_model.sr with
        | .error e => (.error ⟨500, e⟩, s', [call])
        | .ok enc => (.ok ⟨200, "audio/wav", enc⟩, s', [call])

/-- The `/v1/audio/speech` endpoint of the chatterbox server.  Note that,
unlike the native endpoint, it reads only the `input` key for text, passes no
tuning keyword arguments to `generate`, and encodes according to
`response_format` (default `"mp3"`): `mp3` falls back to wav on an encoder
failure, `aac` and unrecognised formats are written as wav directly, while
`opus` and `flac` encoder failures propagate to the outer handler. -/
def openai_compatible_synthesize (env : Env) (dir : String) (disk : List String)
    (s : ServerState) (req : Request) :
    Except HTTPErr AudioResponse × ServerState × List GenerateCall :=
  let text? := req.input
  let voice := req.voice.getD "default"
  let response_format := req.response_format.getD "mp3"
  match checkText text? "No input text provided" with
  | .error e => (.error e, s, [])
  | .ok text =>
    match get_model env s with
    | (.error e, s') => (.error ⟨500, e⟩, s', [])
    | (.ok tts_model, s') =>
      let audio_prompt_path := (resolve_voice dir disk voice).1
      let call : GenerateCall := ⟨text, audio_prompt_path, none, none⟩
      match env.generate call with
      | .error e => (.error ⟨500, e⟩, s', [call])
      | .ok wav =>
        let encoded : Except String (Encoded × String) :=
          if response_format = "mp3" then
            match taSave env .mp3 wav tts_model.sr with
            | .ok enc => .ok (enc, "audio/mpeg")
            | .error _ =>
              match taSave env .wav wav tts_model.sr with
              | .ok enc => .ok (enc, "audio/wav")
              | .error e => .error e
          else if response_format = "opus" then
            match taSave env .ogg wav tts_model.sr with
            | .ok enc => .ok (enc, "audio/ogg")
            | .error e => .error e
          else if response_format = "aac" then
            match taSave env .wav wav tts_model.sr with
            | .ok enc => .ok (enc, "audio/wav")
            | .error e => .error e
          else if response_format = "flac" then
            match taSave env .flac wav tts_model.sr with
            | .ok enc => .ok (enc, "audio/flac")
            | .error e => .error e
          else
            match taSave env .wav wav tts_model.sr with
            | .ok enc => .ok (enc, "audio/wav")
            | .error e => .error e
        match encoded with
        | .error e => (.error ⟨500, e⟩, s', [call])
        | .ok (enc, ct) => (.ok ⟨200, ct, enc⟩, s', [call])

/-- The per-character step of the upload name sanitiser:
`c if c.isalnum() or c in "_-" else "_"`, then `.lower()`. -/
def sanitizeChar (c : Char) : Char :=
  (if c.isAlphanum || c = '_' || c = '-' then c else '_').toLower

/-- `safe_name` of `upload_voice`:
`"".join(c if c.isalnum() or c in "_-" else "_" for c in name).lower()`. -/
def sanitizeName (name : String) : String :=
  String.mk (name.data.map sanitizeChar)

/-- `PurePath.suffix`: the final dot-led extension of a file name, empty when
the only dot is leading or trailing or there is none. -/
def pySuffix (name : String) : String :=
  let cs := name.data
  match cs.reverse.findIdx? (fun c => c = '.') with
  | none => ""
  | some j =>
    let i := cs.length - 1 - j
    if 0 < i ∧ i < cs.length - 1 then String.mk (cs.drop i) else ""

/-- `.lower()` on a string. -/
def pyLower (s : String) : String :=
  String.mk (s.data.map Char.toLower)

/-- The result body of a successful upload. -/
structure UploadResult where
  voice_id : String
  path : String
deriving DecidableEq, Repr

/-- A contentful view of the voices directory: path, decoded audio, rate. -/
def Disk := List (String × AudioData × Nat)

/-- Writing a file: the new content replaces any previous file at the path. -/
def fsWrite (fs : Disk) (p : String) (a : AudioData) (r : Nat) : Disk :=
  (p, a, r) :: List.filter (fun e => e.1 ≠ p) fs

/-- Reading the file stored at a path, if any. -/
def fsLookup (fs : Disk) (p : String) : Option (AudioData × Nat) :=
  (List.find? (fun e => e.1 = p) fs).map (fun e => e.2)

/-- `ta.transforms.Resample(sample_rate, 24000)` applied to a waveform:
changes the sample grid but preserves the channel count. -/
def resample (w : AudioData) : AudioData :=
  ⟨w.channels⟩

/-- `waveform.mean(dim=0, keepdim=True)`: downmix to a single channel. -/
def downmixMono (_w : AudioData) : AudioData :=
  ⟨1⟩

/-- `upload_voice`: validate the file name, sanitise the requested voice name,
check the container allow-list, then decode, resample to 24000 Hz when needed,
downmix multi-channel input to mono, and write `<safe_name>.wav` at 24000 Hz.
`decoded` stands for the outcome of `ta.load` on the uploaded bytes. -/
def upload_voice (dir : String) (fs : Disk) (filename : String) (name : String)
    (decoded : Except String (AudioData × Nat)) :
    Except HTTPErr UploadResult × Disk :=
  if filename = "" then (.error ⟨400, "No audio file provided"⟩, fs)
  else
    let safe_name := sanitizeName name
    if safe_name = "" then (.error ⟨400, "Invalid voice name"⟩, fs)
    else
      let suffix := pyLower (pySuffix filename)
      if ¬ (suffix ∈ [".wav", ".mp3", ".ogg", ".flac"]) then
        (.error ⟨400, "Unsupported audio format. Use WAV, MP3, OGG, or FLAC."⟩, fs)
      else
        let output_path := dir ++ "/" ++ safe_name ++ ".wav"
        match decoded with
        | .error e => (.error ⟨500, e⟩, fs)
        | .ok (waveform, sample_rate) =>
          let waveform := if sample_rate ≠ 24000 then resample waveform else waveform
          let waveform := if waveform.channels > 1 then downmixMono waveform else waveform
          (.ok ⟨safe_name, dir ++ "/" ++ safe_name ++ ".wav"⟩,
           fsWrite fs output_path waveform 24000)

/-- Resolution of `.` and `..` segments of a slash-separated path, yielding
the list of remaining segments. -/
def normalizePath (p : String) : List String :=
  ((p.data.splitOn '/').map String.mk).foldl
    (fun acc seg =>
      if seg = "" ∨ seg = "." then acc
      else if seg = ".." then acc.dropLast
      else acc ++ [seg])
    []

/-- Whether a path, after resolving `..` segments, still lies inside the
given directory. -/
def withinDir (dir p : String) : Bool :=
  (normalizePath p).take (normalizePath dir).length = normalizePath dir

/-! ## C3: voice listing -/

/-- C3 (counterexample): the listing does **not** deduplicate by id.  With
`foo.wav` and `foo.mp3` both present, two entries with id `foo` appear, so
the claim that only the first-found entry for an id appears is false. -/
theorem list_voice_samples_counterexample :
    ((list_voice_samples "/v" ["foo.wav", "foo.mp3"]).map VoiceEntry.id)
      = ["default", "foo", "foo"] ∧
    ¬ ((list_voice_samples "/v" ["foo.wav", "foo.mp3"]).map VoiceEntry.id).Nodup := by
  refine ⟨rfl, ?_⟩
  decide

/-- C3 (amended): the listing always yields the built-in `default` entry
first, then one entry per `.wav` file in filesystem enumeration order, then
one entry per `.mp3` file; every globbed file contributes its own entry and
all non-head entries are custom — there is no deduplication by id. -/
theorem list_voice_samples_spec (dir : String) (files : List String) :
    (list_voice_samples dir files).head? = some defaultVoiceEntry ∧
    (list_voice_samples dir files).map VoiceEntry.id =
      "default" ::
        ((files.filter (matchesGlob ".wav")).map (stemOf ".wav") ++
         (files.filter (matchesGlob ".mp3")).map (stemOf ".mp3")) ∧
    (∀ f ∈ files, matchesGlob ".wav" f = true →
      entryForFile dir ".wav" f ∈ list_voice_samples dir files) ∧
    (∀ e ∈ (list_voice_samples dir files).tail, e.is_custom = true) := by
  refine ⟨rfl, ?_, ?_, ?_⟩
  · simp only [list_voice_samples, List.map_cons, List.map_append, List.map_map]
    rfl
  · intro f hf hw
    unfold list_voice_samples
    exact List.mem_cons_of_mem _ (List.mem_append_left _
      (List.mem_map_of_mem _ (List.mem_filter.mpr ⟨hf, hw⟩)))
  · intro e he
    unfold list_voice_samples at he
    simp only [List.tail_cons, List.mem_append, List.mem_map] at he
    rcases he with ⟨f, _, rfl⟩ | ⟨f, _, rfl⟩ <;> rfl

/-- Witness for C3 (amended) at a concrete store. -/
theorem list_voice_samples_spec_witness :
    entryForFile "/v" ".wav" "foo.wav" ∈ list_voice_samples "/v" ["foo.wav", "bar.mp3"] ∧
    ∀ e ∈ (list_voice_samples "/v" ["foo.wav", "bar.mp3"]).tail, e.is_custom = true := by
  refine ⟨?_, ?_⟩
  · exact (list_voice_samples_spec "/v" ["foo.wav", "bar.mp3"]).2.2.1 "foo.wav"
      (by decide) (by decide)
  · exact (list_voice_samples_spec "/v" ["foo.wav", "bar.mp3"]).2.2.2

/-! ## C7: voice deletion -/

/-- C7: `delete_voice` rejects the reserved id `default` with a 400 and
leaves the store unchanged; for any other id it unlinks the `.wav` candidate
when it exists (even if the `.mp3` one also does), otherwise the `.mp3`
candidate; when neither exists it returns a 404 and the store is unchanged. -/
theorem delete_voice_spec (dir : String) (disk : List String) (id : String) :
    (id = "default" →
      delete_voice dir disk id = (.error ⟨400, "Cannot delete default voice"⟩, disk)) ∧
    (id ≠ "default" → (dir ++ "/" ++ id ++ ".wav") ∈ disk →
      delete_voice dir disk id =
        (.ok (true, id), disk.erase (dir ++ "/" ++ id ++ ".wav"))) ∧
    (id ≠ "default" → (dir ++ "/" ++ id ++ ".wav") ∉ disk →
      (dir ++ "/" ++ id ++ ".mp3") ∈ disk →
      delete_voice dir disk id =
        (.ok (true, id), disk.erase (dir ++ "/" ++ id ++ ".mp3"))) ∧
    (id ≠ "default" → (dir ++ "/" ++ id ++ ".wav") ∉ disk →
      (dir ++ "/" ++ id ++ ".mp3") ∉ disk →
      delete_voice dir disk id = (.error ⟨404, "Voice not found"⟩, disk)) := by
  refine ⟨?_, ?_, ?_, ?_⟩
  · intro h
    simp [delete_voice, h]
  · intro h hw
    simp [delete_voice, candidatePaths, h, List.find?, hw]
  · intro h hw hm
    simp [delete_voice, candidatePaths, h, List.find?, hw, hm]
  · intro h hw hm
    simp [delete_voice, candidatePaths, h, List.find?, hw, hm]

/-- Witness for C7 at a concrete store: delete of `foo` removes `foo.wav`
first, delete of `default` is rejected, delete of a never-created id is 404. -/
theorem delete_voice_spec_witness :
    delete_voice "/v" ["/v/foo.wav", "/v/foo.mp3"] "foo"
      = (.ok (true, "foo"), ["/v/foo.mp3"]) ∧
    delete_voice "/v" ["/v/foo.wav"] "default"
      = (.error ⟨400, "Cannot delete default voice"⟩, ["/v/foo.wav"]) ∧
    delete_voice "/v" ["/v/foo.wav"] "bar"
      = (.error ⟨404, "Voice not found"⟩, ["/v/foo.wav"]) := by
  refine ⟨?_, ?_, ?_⟩
  · have h := (delete_voice_spec "/v" ["/v/foo.wav", "/v/foo.mp3"] "foo").2.1
      (by decide) (by decide)
    simpa using h
  · exact (delete_voice_spec "/v" ["/v/foo.wav"] "default").1 rfl
  · exact (delete_voice_spec "/v" ["/v/foo.wav"] "bar").2.2.2
      (by decide) (by decide) (by decide)

/-! ## C10: unsanitised id interpolation -/

/-- C10: resolution and deletion interpolate the raw id into the directory
path; for the id `../evil` the candidate `"/data/voices/../evil.wav"` escapes
the voices directory (its normalised form is not under the directory), is
returned as a reference path by resolution, and is unlinked by deletion —
while the upload sanitiser maps the same name to `___evil`, whose target path
stays inside the directory. -/
theorem unsanitized_voice_paths :
    candidatePaths "/data/voices" "../evil"
      = ["/data/voices/../evil.wav", "/data/voices/../evil.mp3"] ∧
    resolve_voice "/data/voices" ["/data/voices/../evil.wav"] "../evil"
      = (some "/data/voices/../evil.wav", true) ∧
    normalizePath "/data/voices/../evil.wav" = ["data", "evil.wav"] ∧
    withinDir "/data/voices" "/data/voices/../evil.wav" = false ∧
    delete_voice "/data/voices" ["/data/voices/../evil.wav"] "../evil"
      = (.ok (true, "../evil"), []) ∧
    sanitizeName "../evil" = "___evil" ∧
    withinDir "/data/voices" ("/data/voices/" ++ sanitizeName "../evil" ++ ".wav")
      = true := by
  exact ⟨rfl, rfl, rfl, rfl, rfl, rfl, rfl⟩

/-! ## C1: single load under concurrent callers -/

/-- Once the handle is loaded, every further `get_model` call returns it and
leaves the state untouched. -/
theorem get_model_iter_loaded (env : Env) (s : ServerState) (m : ModelHandle)
    (n : Nat) (h : s.model = some m) :
    get_model_iter env s n = (List.replicate n (.ok m), s) := by
  induction n with
  | zero => rfl
  | succ n ih => simp [get_model_iter, get_model, h, ih, List.replicate_succ]

/-- The coqui counterpart of `get_model_iter_loaded`. -/
theorem coqui_get_model_iter_loaded (env : Env) (s : CoquiState)
    (m : ModelHandle) (n : Nat) (h : s.model = some m) :
    coqui_get_model_iter env s n = (List.replicate n (.ok m), s) := by
  induction n with
  | zero => rfl
  | succ n ih => simp [coqui_get_model_iter, coqui_get_model, h, ih, List.replicate_succ]

/-- C1: any number of callers hitting `get_model` while the model is not yet
loaded trigger exactly one load of the underlying model (the ghost load
counter rises by one however many callers there are), and every caller
receives the same shared handle — on both servers.  Each `get_model` call is
atomic because the Python function has no `await` point and all handlers run
on one event loop, so a set of concurrent callers executes as some sequence
of such calls, which is what `get_model_iter` folds. -/
theorem get_model_single_load (env : Env) (s : ServerState) (cs : CoquiState)
    (m : ModelHandle) (n : Nat)
    (hload : env.loadOutcome = .ok m) (hs : s.model = none) (hcs : cs.model = none) :
    (get_model_iter env s (n + 1)).1 = List.replicate (n + 1) (.ok m) ∧
    (get_model_iter env s (n + 1)).2.loadAttempts = s.loadAttempts + 1 ∧
    (get_model_iter env s (n + 1)).2.model = some m ∧
    (coqui_get_model_iter env cs (n + 1)).1 = List.replicate (n + 1) (.ok m) ∧
    (coqui_get_model_iter env cs (n + 1)).2.loadAttempts = cs.loadAttempts + 1 ∧
    (coqui_get_model_iter env cs (n + 1)).2.model = some m := by
  have h1 : get_model env s =
      (.ok m, { model := some m, device := get_device env,
                loadAttempts := s.loadAttempts + 1 }) := by
    simp [get_model, hs, hload]
  have h2 : coqui_get_model env cs =
      (.ok m, { model := some m, device := coqui_get_device env,
                sample_rate := m.outRate.getD 22050,
                loadAttempts := cs.loadAttempts + 1 }) := by
    simp [coqui_get_model, hcs, hload]
  have h3 := get_model_iter_loaded env
    { model := some m, device := get_device env, loadAttempts := s.loadAttempts + 1 }
    m n rfl
  have h4 := coqui_get_model_iter_loaded env
    { model := some m, device := coqui_get_device env,
      sample_rate := m.outRate.getD 22050, loadAttempts := cs.loadAttempts + 1 }
    m n rfl
  refine ⟨?_, ?_, ?_, ?_, ?_, ?_⟩ <;>
    simp [get_model_iter, coqui_get_model_iter, h1, h2, h3, h4, List.replicate_succ]

/-- Witness for C1: three callers against an initially unloaded server. -/
theorem get_model_single_load_witness :
    (get_model_iter
        { devPref := "cpu", cuda := false, mps := false,
          loadOutcome := .ok ⟨7, 24000, none⟩,
          generate := fun _ => .ok ⟨1⟩, canEncode := fun _ => true }
        ⟨none, "cpu", 0⟩ 3).1
      = List.replicate 3 (.ok ⟨7, 24000, none⟩) ∧
    (get_model_iter
        { devPref := "cpu", cuda := false, mps := false,
          loadOutcome := .ok ⟨7, 24000, none⟩,
          generate := fun _ => .ok ⟨1⟩, canEncode := fun _ => true }
        ⟨none, "cpu", 0⟩ 3).2.loadAttempts = 1 := by
  have h := get_model_single_load
    { devPref := "cpu", cuda := false, mps := false,
      loadOutcome := .ok ⟨7, 24000, none⟩,
      generate := fun _ => .ok ⟨1⟩, canEncode := fun _ => true }
    ⟨none, "cpu", 0⟩ ⟨none, "cpu", 22050, 0⟩ ⟨7, 24000, none⟩ 2 rfl rfl rfl
  exact ⟨h.1, h.2.1⟩

/-! ## C8: load failure leaves the state unloaded -/

/-- C8: when the underlying load raises, the error is reported to the caller,
the handle remains unloaded, a subsequent call attempts the load again (the
ghost counter shows a second invocation), and the eager startup hook absorbs
the failure, finishing with the state still unloaded. -/
theorem load_failure_spec (env : Env) (s : ServerState) (e : String)
    (hs : s.model = none) (hload : env.loadOutcome = .error e) :
    (get_model env s).1 = .error e ∧
    (get_model env s).2.model = none ∧
    (get_model env s).2.loadAttempts = s.loadAttempts + 1 ∧
    (get_model env (get_model env s).2).2.loadAttempts = s.loadAttempts + 2 ∧
    (get_model env (get_model env s).2).1 = .error e ∧
    (startup_event env s).model = none := by
  have h1 : get_model env s =
      (.error e, { model := none, device := get_device env,
                   loadAttempts := s.loadAttempts + 1 }) := by
    simp [get_model, hs, hload]
  have h2 : get_model env
      { model := none, device := get_device env, loadAttempts := s.loadAttempts + 1 } =
      (.error e, { model := none, device := get_device env,
                   loadAttempts := s.loadAttempts + 2 }) := by
    simp [get_model, hload]
  refine ⟨?_, ?_, ?_, ?_, ?_, ?_⟩ <;>
    simp [h1, h2, startup_event]

/-- Witness for C8 at a concrete failing environment. -/
theorem load_failure_spec_witness :
    (get_model
        { devPref := "cpu", cuda := false, mps := false,
          loadOutcome := .error "download failed",
          generate := fun _ => .ok ⟨1⟩, canEncode := fun _ => true }
        ⟨none, "cpu", 0⟩).1 = .error "download failed" ∧
    (startup_event
        { devPref := "cpu", cuda := false, mps := false,
          loadOutcome := .error "download failed",
          generate := fun _ => .ok ⟨1⟩, canEncode := fun _ => true }
        ⟨none, "cpu", 0⟩).model = none := by
  have h := load_failure_spec
    { devPref := "cpu", cuda := false, mps := false,
      loadOutcome := .error "download failed",
      generate := fun _ => .ok ⟨1⟩, canEncode := fun _ => true }
    ⟨none, "cpu", 0⟩ "download failed" rfl rfl
  exact ⟨h.1, h.2.2.2.2.2⟩

/-! ## C4: text validation on both surfaces -/

/-- C4: on both endpoints a missing/empty text or a text longer than 4096
code points yields a 400 before any model invocation (the server state is
untouched and no engine call is made); the shared check accepts length
exactly 4096 and rejects 4097, identically whichever endpoint's detail
message is in use. -/
theorem text_validation_spec (env : Env) (dir : String) (disk : List String)
    (s : ServerState) (req : Request) :
    (pyOr req.input req.text = none →
      synthesize env dir disk s req
        = (.error ⟨400, "No text provided"⟩, s, [])) ∧
    (∀ t, pyOr req.input req.text = some t → 4096 < t.length →
      synthesize env dir disk s req
        = (.error ⟨400, "Text too long (max 4096 characters)"⟩, s, [])) ∧
    (req.input = none →
      openai_compatible_synthesize env dir disk s req
        = (.error ⟨400, "No input text provided"⟩, s, [])) ∧
    (req.input = some "" →
      openai_compatible_synthesize env dir disk s req
        = (.error ⟨400, "No input text provided"⟩, s, [])) ∧
    (∀ t, req.input = some t → 4096 < t.length →
      openai_compatible_synthesize env dir disk s req
        = (.error ⟨400, "Text too long (max 4096 characters)"⟩, s, [])) ∧
    (∀ t msg, t.length = 4096 → checkText (some t) msg = .ok t) ∧
    (∀ t msg, t.length = 4097 →
      checkText (some t) msg = .error ⟨400, "Text too long (max 4096 characters)"⟩) := by
  refine ⟨?_, ?_, ?_, ?_, ?_, ?_, ?_⟩
  · intro h
    simp [synthesize, h, checkText]
  · intro t h hl
    have hne : t ≠ "" := by
      intro he
      rw [he] at hl
      simp at hl
    simp [synthesize, h, checkText, hne, hl]
  · intro h
    simp [openai_compatible_synthesize, h, checkText]
  · intro h
    simp [openai_compatible_synthesize, h, checkText]
  · intro t h hl
    have hne : t ≠ "" := by
      intro he
      rw [he] at hl
      simp at hl
    simp [openai_compatible_synthesize, h, checkText, hne, hl]
  · intro t msg h
    have hne : t ≠ "" := by
      intro he
      rw [he] at h
      simp at h
    have hl : ¬ 4096 < t.length := by omega
    simp [checkText, hne, hl]
  · intro t msg h
    have hne : t ≠ "" := by
      intro he
      rw [he] at h
      simp at h
    have hl : 4096 < t.length := by omega
    simp [checkText, hne, hl]

/-- Witness for C4: the boundary strings of length 4096 and 4097 and an
empty-input request against a concrete server. -/
theorem text_validation_spec_witness :
    checkText (some (String.mk (List.replicate 4096 'a'))) "No text provided"
      = .ok (String.mk (List.replicate 4096 'a')) ∧
    checkText (some (String.mk (List.replicate 4097 'a'))) "No input text provided"
      = .error ⟨400, "Text too long (max 4096 characters)"⟩ ∧
    synthesize
      { devPref := "cpu", cuda := false, mps := false,
        loadOutcome := .ok ⟨0, 24000, none⟩,
        generate := fun _ => .ok ⟨1⟩, canEncode := fun _ => true }
      "/v" [] ⟨none, "cpu", 0⟩ { emptyRequest with input := some "" }
      = (.error ⟨400, "No text provided"⟩, ⟨none, "cpu", 0⟩, []) := by
  have hlen : ∀ n : Nat, (String.mk (List.replicate n 'a')).length = n := by
    intro n
    simp [String.length]
  refine ⟨?_, ?_, ?_⟩
  · exact (text_validation_spec
      { devPref := "cpu", cuda := false, mps := false,
        loadOutcome := .ok ⟨0, 24000, none⟩,
        generate := fun _ => .ok ⟨1⟩, canEncode := fun _ => true }
      "/v" [] ⟨none, "cpu", 0⟩ emptyRequest).2.2.2.2.2.1
      (String.mk (List.replicate 4096 'a')) "No text provided" (hlen 4096)
  · exact (text_validation_spec
      { devPref := "cpu", cuda := false, mps := false,
        loadOutcome := .ok ⟨0, 24000, none⟩,
        generate := fun _ => .ok ⟨1⟩, canEncode := fun _ => true }
      "/v" [] ⟨none, "cpu", 0⟩ emptyRequest).2.2.2.2.2.2
      (String.mk (List.replicate 4097 'a')) "No input text provided" (hlen 4097)
  · exact (text_validation_spec
      { devPref := "cpu", cuda := false, mps := false,
        loadOutcome := .ok ⟨0, 24000, none⟩,
        generate := fun _ => .ok ⟨1⟩, canEncode := fun _ => true }
      "/v" [] ⟨none, "cpu", 0⟩ { emptyRequest with input := some "" }).1 rfl

/-! ## Shared endpoint characterisations -/

/-- When validation passes and the model is already loaded, the native
endpoint performs exactly one engine call, with the validated text, the
resolved reference path, and both tuning values always passed (request
values, defaulting to 1/2); any error it then returns is a 500. -/
theorem synthesize_trace (env : Env) (dir : String) (disk : List String)
    (s : ServerState) (req : Request) (m : ModelHandle) (t : String)
    (hm : s.model = some m) (ht : pyOr req.input req.text = some t)
    (ht0 : t ≠ "") (htl : t.length ≤ 4096) :
    (synthesize env dir disk s req).2.2 =
      [⟨t, (resolve_voice dir disk (req.voice.getD "default")).1,
        some (req.exaggeration.getD (1/2 : ℚ)),
        some (req.cfg_weight.getD (1/2 : ℚ))⟩] ∧
    (∀ st d, (synthesize env dir disk s req).1 = .error ⟨st, d⟩ → st = 500) := by
  have hl : ¬ 4096 < t.length := by omega
  have hct : checkText (pyOr req.input req.text) "No text provided" = .ok t := by
    simp [checkText, ht, ht0, hl]
  constructor
  · simp only [synthesize, hct, get_model, hm]
    split <;> simp_all
    split <;> simp_all
  · intro st d h
    simp only [synthesize, hct, get_model, hm] at h
    split at h <;> simp_all
    split at h <;> simp_all

/-- The OpenAI-compatible analogue of `synthesize_trace`: one engine call
with the same text and resolved path but no tuning keyword arguments. -/
theorem openai_synthesize_trace (env : Env) (dir : String) (disk : List String)
    (s : ServerState) (req : Request) (m : ModelHandle) (t : String)
    (hm : s.model = some m) (ht : req.input = some t)
    (ht0 : t ≠ "") (htl : t.length ≤ 4096) :
    (openai_compatible_synthesize env dir disk s req).2.2 =
      [⟨t, (resolve_voice dir disk (req.voice.getD "default")).1, none, none⟩] := by
  have hl : ¬ 4096 < t.length := by
    omega
  have hct : checkText req.input "No input text provided" = .ok t := by
    simp [checkText, ht, ht0, hl]
  simp only [openai_compatible_synthesize, hct, get_model, hm]
  split <;> simp_all
  split <;> simp_all

/-! ## C6: default voice and silent fallback for missing assets -/

/-- C6: resolving the id `default` yields no reference audio with the voices
directory never touched (for any directory and any disk contents); and a
synthesis request whose non-`default` voice id has no asset under either
extension proceeds to the engine with no reference path — any error the
endpoint can still return is a 500 from the engine or encoder, never an
error raised by voice resolution. -/
theorem resolve_default_and_missing_spec (env : Env) (dir : String)
    (disk : List String) (s : ServerState) (req : Request) (m : ModelHandle)
    (id t : String)
    (hm : s.model = some m)
    (hv : req.voice = some id) (hid : id ≠ "default")
    (hw : (dir ++ "/" ++ id ++ ".wav") ∉ disk)
    (hmp : (dir ++ "/" ++ id ++ ".mp3") ∉ disk)
    (ht : pyOr req.input req.text = some t) (ht0 : t ≠ "") (htl : t.length ≤ 4096) :
    (∀ d dk, resolve_voice d dk "default" = (none, false)) ∧
    resolve_voice dir disk id = (none, true) ∧
    (synthesize env dir disk s req).2.2 =
      [⟨t, none, some (req.exaggeration.getD (1/2 : ℚ)),
        some (req.cfg_weight.getD (1/2 : ℚ))⟩] ∧
    (∀ st d, (synthesize env dir disk s req).1 = .error ⟨st, d⟩ → st = 500) := by
  have hres : resolve_voice dir disk id = (none, true) := by
    simp [resolve_voice, candidatePaths, hid, List.find?, hw, hmp]
  have htr := synthesize_trace env dir disk s req m t hm ht ht0 htl
  refine ⟨fun d dk => rfl, hres, ?_, htr.2⟩
  rw [htr.1, hv]
  simp [hres]

/-- Witness for C6: a concrete request for the never-created voice `ghost`
against an empty voices directory proceeds with no reference audio. -/
theorem resolve_default_and_missing_spec_witness :
    resolve_voice "/v" [] "default" = (none, false) ∧
    (synthesize
        { devPref := "cpu", cuda := false, mps := false,
          loadOutcome := .ok ⟨0, 24000, none⟩,
          generate := fun _ => .ok ⟨1⟩, canEncode := fun _ => true }
        "/v" [] ⟨some ⟨0, 24000, none⟩, "cpu", 1⟩
        { emptyRequest with input := some "hi", voice := some "ghost" }).2.2 =
      [⟨"hi", none, some (1/2 : ℚ), some (1/2 : ℚ)⟩] := by
  have h := resolve_default_and_missing_spec
    { devPref := "cpu", cuda := false, mps := false,
      loadOutcome := .ok ⟨0, 24000, none⟩,
      generate := fun _ => .ok ⟨1⟩, canEncode := fun _ => true }
    "/v" [] ⟨some ⟨0, 24000, none⟩, "cpu", 1⟩
    { emptyRequest with input := some "hi", voice := some "ghost" }
    ⟨0, 24000, none⟩ "ghost" "hi" rfl rfl (by decide)
    (by decide) (by decide) rfl (by decide) (by decide)
  exact ⟨h.1 "/v" [], h.2.2.1⟩

/-! ## C5: native vs OpenAI-compatible surface -/

/-- C5 (counterexample): the two surfaces do **not** perform the same engine
invocation for the same request and state.  For the request
`{input: "hi", exaggeration: 0.9}` the native endpoint passes
`exaggeration=0.9, cfg_weight=0.5` to `generate`, while the OpenAI-compatible
endpoint passes no tuning arguments at all. -/
theorem surface_equivalence_counterexample :
    (synthesize
        { devPref := "cpu", cuda := false, mps := false,
          loadOutcome := .ok ⟨0, 24000, none⟩,
          generate := fun _ => .ok ⟨1⟩, canEncode := fun _ => true }
        "/v" [] ⟨some ⟨0, 24000, none⟩, "cpu", 1⟩
        { emptyRequest with input := some "hi", exaggeration := some (9/10 : ℚ) }).2.2
      = [⟨"hi", none, some (9/10 : ℚ), some (1/2 : ℚ)⟩] ∧
    (openai_compatible_synthesize
        { devPref := "cpu", cuda := false, mps := false,
          loadOutcome := .ok ⟨0, 24000, none⟩,
          generate := fun _ => .ok ⟨1⟩, canEncode := fun _ => true }
        "/v" [] ⟨some ⟨0, 24000, none⟩, "cpu", 1⟩
        { emptyRequest with input := some "hi", exaggeration := some (9/10 : ℚ) }).2.2
      = [⟨"hi", none, none, none⟩] ∧
    some (9/10 : ℚ) ≠ (none : Option ℚ) := by
  refine ⟨rfl, rfl, ?_⟩
  simp

/-- C5 (amended): for the same request, store, and loaded-model state, both
endpoints resolve the voice identically and invoke the engine exactly once
with the same text and the same reference path; but the native endpoint
always passes `exaggeration` and `cfg_weight` (the request's values,
defaulting to 1/2) while the OpenAI-compatible endpoint passes no tuning
arguments, leaving them to the engine's internal defaults, and the response
envelopes differ per surface. -/
theorem surface_equivalence_spec (env : Env) (dir : String) (disk : List String)
    (s : ServerState) (req : Request) (m : ModelHandle) (t : String)
    (hm : s.model = some m) (ht : req.input = some t)
    (ht0 : t ≠ "") (htl : t.length ≤ 4096) :
    ∃ p, p = (resolve_voice dir disk (req.voice.getD "default")).1 ∧
      (synthesize env dir disk s req).2.2 =
        [⟨t, p, some (req.exaggeration.getD (1/2 : ℚ)),
          some (req.cfg_weight.getD (1/2 : ℚ))⟩] ∧
      (openai_compatible_synthesize env dir disk s req).2.2 =
        [⟨t, p, none, none⟩] := by
  have hpy : pyOr req.input req.text = some t := by
    simp [pyOr, ht, ht0]
  refine ⟨(resolve_voice dir disk (req.voice.getD "default")).1, rfl, ?_, ?_⟩
  · exact (synthesize_trace env dir disk s req m t hm hpy ht0 htl).1
  · exact openai_synthesize_trace env dir disk s req m t hm ht ht0 htl

/-- Witness for C5 (amended) at a concrete request and store. -/
theorem surface_equivalence_spec_witness :
    ∃ p, p = (resolve_voice "/v" ["/v/alice.wav"] "alice").1 ∧
      (synthesize
          { devPref := "cpu", cuda := false, mps := false,
            loadOutcome := .ok ⟨0, 24000, none⟩,
            generate := fun _ => .ok ⟨1⟩, canEncode := fun _ => true }
          "/v" ["/v/alice.wav"] ⟨some ⟨0, 24000, none⟩, "cpu", 1⟩
          { emptyRequest with input := some "hi", voice := some "alice" }).2.2 =
        [⟨"hi", p, some (1/2 : ℚ), some (1/2 : ℚ)⟩] ∧
      (openai_compatible_synthesize
          { devPref := "cpu", cuda := false, mps := false,
            loadOutcome := .ok ⟨0, 24000, none⟩,
            generate := fun _ => .ok ⟨1⟩, canEncode := fun _ => true }
          "/v" ["/v/alice.wav"] ⟨some ⟨0, 24000, none⟩, "cpu", 1⟩
          { emptyRequest with input := some "hi", voice := some "alice" }).2.2 =
        [⟨"hi", p, none, none⟩] := by
  exact surface_equivalence_spec
    { devPref := "cpu", cuda := false, mps := false,
      loadOutcome := .ok ⟨0, 24000, none⟩,
      generate := fun _ => .ok ⟨1⟩, canEncode := fun _ => true }
    "/v" ["/v/alice.wav"] ⟨some ⟨0, 24000, none⟩, "cpu", 1⟩
    { emptyRequest with input := some "hi", voice := some "alice" }
    ⟨0, 24000, none⟩ "hi" rfl rfl (by decide) (by decide)

/-! ## C2: encoder fallback on the OpenAI-compatible surface -/

/-- C2 (counterexample): encoding **can** fail the request.  With a runtime
whose backend cannot write `flac` (every other container fine), a valid
request for `response_format = "flac"` returns a 500 — the claimed universal
fallback to WAV does not exist for the `flac` (or `opus`) branch. -/
theorem encode_fallback_counterexample :
    (openai_compatible_synthesize
        { devPref := "cpu", cuda := false, mps := false,
          loadOutcome := .ok ⟨0, 24000, none⟩,
          generate := fun _ => .ok ⟨1⟩,
          canEncode := fun f => f ≠ .flac }
        "/v" [] ⟨some ⟨0, 24000, none⟩, "cpu", 1⟩
        { emptyRequest with input := some "hi", response_format := some "flac" }).1
      = .error ⟨500, "encoding failed"⟩ := by
  rfl

/-- C2 (amended): the `aac` format and any unrecognised format are always
written as WAV with content type `audio/wav` and a 200; an `mp3` encoder
failure falls back to WAV likewise; but an `opus` or `flac` encoder failure
propagates to the outer handler as a 500 instead of falling back. -/
theorem encode_fallback_spec (env : Env) (dir : String) (disk : List String)
    (s : ServerState) (req : Request) (m : ModelHandle) (t rf : String)
    (w : AudioData)
    (hm : s.model = some m) (ht : req.input = some t)
    (ht0 : t ≠ "") (htl : t.length ≤ 4096)
    (hrf : req.response_format = some rf)
    (hwav : env.canEncode .wav = true)
    (hgen : ∀ c, env.generate c = .ok w) :
    ((rf = "aac" ∨ rf ∉ (["mp3", "opus", "flac"] : List String)) →
      (openai_compatible_synthesize env dir disk s req).1 =
        .ok ⟨200, "audio/wav", ⟨.wav, w, m.sr⟩⟩) ∧
    (rf = "mp3" → env.canEncode .mp3 = false →
      (openai_compatible_synthesize env dir disk s req).1 =
        .ok ⟨200, "audio/wav", ⟨.wav, w, m.sr⟩⟩) ∧
    (rf = "opus" → env.canEncode .ogg = false →
      (openai_compatible_synthesize env dir disk s req).1 =
        .error ⟨500, "encoding failed"⟩) ∧
    (rf = "flac" → env.canEncode .flac = false →
      (openai_compatible_synthesize env dir disk s req).1 =
        .error ⟨500, "encoding failed"⟩) := by
  have hl : ¬ 4096 < t.length := by omega
  have hct : checkText req.input "No input text provided" = .ok t := by
    simp [checkText, ht, ht0, hl]
  refine ⟨?_, ?_, ?_, ?_⟩
  · intro h
    rcases h with h | h
    · subst h
      simp [openai_compatible_synthesize, hct, get_model, hm, hrf, hgen, taSave, hwav]
    · have h1 : rf ≠ "mp3" := by simp_all
      have h2 : rf ≠ "opus" := by simp_all
      have h3 : rf ≠ "flac" := by simp_all
      by_cases ha : rf = "aac" <;>
        simp [openai_compatible_synthesize, hct, get_model, hm, hrf, hgen,
          taSave, hwav, h1, h2, h3, ha]
  · intro h hmp3
    subst h
    simp [openai_compatible_synthesize, hct, get_model, hm, hrf, hgen,
      taSave, hwav, hmp3]
  · intro h hogg
    subst h
    simp [openai_compatible_synthesize, hct, get_model, hm, hrf, hgen,
      taSave, hogg]
  · intro h hflac
    subst h
    simp [openai_compatible_synthesize, hct, get_model, hm, hrf, hgen,
      taSave, hflac]

/-- Witness for C2 (amended): a concrete `aac` request on a backend that can
encode everything but `aac` (which has no encoder anywhere) returns WAV. -/
theorem encode_fallback_spec_witness :
    (openai_compatible_synthesize
        { devPref := "cpu", cuda := false, mps := false,
          loadOutcome := .ok ⟨0, 24000, none⟩,
          generate := fun _ => .ok ⟨1⟩, canEncode := fun _ => true }
        "/v" [] ⟨some ⟨0, 24000, none⟩, "cpu", 1⟩
        { emptyRequest with input := some "hi", response_format := some "aac" }).1
      = .ok ⟨200, "audio/wav", ⟨.wav, ⟨1⟩, 24000⟩⟩ := by
  exact (encode_fallback_spec
    { devPref := "cpu", cuda := false, mps := false,
      loadOutcome := .ok ⟨0, 24000, none⟩,
      generate := fun _ => .ok ⟨1⟩, canEncode := fun _ => true }
    "/v" [] ⟨some ⟨0, 24000, none⟩, "cpu", 1⟩
    { emptyRequest with input := some "hi", response_format := some "aac" }
    ⟨0, 24000, none⟩ "hi" "aac" ⟨1⟩ rfl rfl (by decide) (by decide) rfl rfl
    (fun c => rfl)).1 (Or.inl rfl)

/-! ## C9: upload normalisation then resolution -/

/-- C9: for every valid (non-empty, non-reserved after sanitisation) voice
name and every supported upload (allow-listed extension, decodable audio with
at least one channel, any original rate), `upload_voice` succeeds, stores the
asset as `<slug>.wav` under the sanitised slug, resolution of that slug finds
exactly that path, and the stored audio has exactly 1 channel at 24000 Hz. -/
theorem upload_then_resolve_spec (dir : String) (fs : Disk)
    (filename name : String) (audio : AudioData) (rate : Nat)
    (hfile : filename ≠ "")
    (hname : sanitizeName name ≠ "")
    (hnd : sanitizeName name ≠ "default")
    (hsuf : pyLower (pySuffix filename) ∈ ([".wav", ".mp3", ".ogg", ".flac"] : List String))
    (hch : 1 ≤ audio.channels) :
    (upload_voice dir fs filename name (.ok (audio, rate))).1 =
      .ok ⟨sanitizeName name, dir ++ "/" ++ sanitizeName name ++ ".wav"⟩ ∧
    resolve_voice dir
        ((upload_voice dir fs filename name (.ok (audio, rate))).2.map (fun e => e.1))
        (sanitizeName name) =
      (some (dir ++ "/" ++ sanitizeName name ++ ".wav"), true) ∧
    fsLookup (upload_voice dir fs filename name (.ok (audio, rate))).2
        (dir ++ "/" ++ sanitizeName name ++ ".wav") =
      some (⟨1⟩, 24000) := by
  have hnorm : (if (if rate ≠ 24000 then resample audio else audio).channels > 1 then
      downmixMono (if rate ≠ 24000 then resample audio else audio)
      else (if rate ≠ 24000 then resample audio else audio)) = ⟨1⟩ := by
    by_cases hr : rate = 24000 <;> by_cases hc : audio.channels > 1 <;>
      simp [hr, hc, resample, downmixMono] <;>
      cases audio <;> simp_all <;> omega
  have hup : upload_voice dir fs filename name (.ok (audio, rate)) =
      (.ok ⟨sanitizeName name, dir ++ "/" ++ sanitizeName name ++ ".wav"⟩,
       fsWrite fs (dir ++ "/" ++ sanitizeName name ++ ".wav") ⟨1⟩ 24000) := by
    simp only [upload_voice, if_neg hfile]
    rw [if_neg (by simpa using hname), if_neg (not_not_intro hsuf)]
    rw [hnorm]
  refine ⟨by rw [hup], ?_, ?_⟩
  · have hmem : (dir ++ "/" ++ sanitizeName name ++ ".wav") ∈
        ((fsWrite fs (dir ++ "/" ++ sanitizeName name ++ ".wav") ⟨1⟩ 24000).map
          (fun e => e.1)) := by
      simp [fsWrite]
    rw [hup]
    simp only [resolve_voice, if_neg hnd, candidatePaths, List.map_cons, List.map_nil,
      List.find?]
    have : (((fsWrite fs (dir ++ "/" ++ sanitizeName name ++ ".wav") ⟨1⟩ 24000).map
        (fun e => e.1)).contains (dir ++ "/" ++ sanitizeName name ++ ".wav")) = true := by
      simpa using hmem
    rw [this]
  · rw [hup]
    simp [fsLookup, fsWrite, List.find?]

/-- Witness for C9: uploading stereo 44100 Hz audio from `clip.MP3` under the
name `My Voice!` stores a mono 24000 Hz asset at `/v/my_voice_.wav` that the
resolver finds. -/
theorem upload_then_resolve_spec_witness :
    (upload_voice "/v" [] "clip.MP3" "My Voice!" (.ok (⟨2⟩, 44100))).1 =
      .ok ⟨"my_voice_", "/v/my_voice_.wav"⟩ ∧
    fsLookup (upload_voice "/v" [] "clip.MP3" "My Voice!" (.ok (⟨2⟩, 44100))).2
        "/v/my_voice_.wav" = some (⟨1⟩, 24000) := by
  have h := upload_then_resolve_spec "/v" [] "clip.MP3" "My Voice!" ⟨2⟩ 44100
    (by decide) (by decide) (by decide) (by decide) (by decide)
  exact ⟨h.1, h.2.2⟩

end TTSGateway
